import Mathlib

/-!
Verification of the alert/response consistency core of the
Drewbert overdose-response application.

The embedding models, from the source:
  * the SQL stored procedures of the final migrations
    (`increment_responder_count`, `decrement_responder_count`,
    `cancel_response_safe`, `create_response_safe`,
    `end_monitoring_session_safe`);
  * the client-side operations of `src/hooks/useAlerts.ts`
    (`commitToAlert`, `cancelResponse` with its manual fallback,
    `endResponse`, the fetch filters) and of
    `src/hooks/useMonitoringSession.ts` (`cancelAlert`);
  * the retry helper `withRetry` of `src/lib/supabase.ts`.

An alert row is reduced to the fields the claims are about
(`status`, `responder_count`); a response row to its id, responder and
status.  Stored procedures run atomically at the store; client
operations are sequences of such atomic steps, so a race between two
clients is an interleaving of their atomic steps.
-/

/-- Alert lifecycle status, from the `alert_status` SQL enum. -/
inductive AlertStatus
  | active
  | responded
  | resolved
  | cancelled
  | falseAlarm
deriving DecidableEq

/-- Response lifecycle status, from the `response_status` SQL enum. -/
inductive ResponseStatus
  | committed
  | enRoute
  | arrived
  | completed
deriving DecidableEq

/-- Monitoring-session status, from the `monitoring_status` SQL enum. -/
inductive MonitoringStatus
  | active
  | completed
  | emergency
deriving DecidableEq

/-- The claim-relevant columns of one row of the `alerts` table. -/
structure AlertRow where
  status : AlertStatus
  responder_count : Int
deriving DecidableEq

/-- Stored procedure `increment_responder_count`
(migration `20250610161125_bitter_limit.sql`, lines 393-406):
one UPDATE that adds 1 to `responder_count` and rewrites `status`
by `CASE WHEN status = 'active' THEN 'responded' ELSE status END`.
Both SET clauses read the pre-update row. -/
def increment_responder_count (a : AlertRow) : AlertRow :=
  { responder_count := a.responder_count + 1
  , status :=
      if a.status = AlertStatus.active then AlertStatus.responded else a.status }

/-- Stored procedure `decrement_responder_count`
(migration `20250610151024_tiny_cave.sql`, lines 2-15):
one UPDATE setting `responder_count` to `GREATEST(0, responder_count - 1)`
and `status` to `active` exactly when that new count is 0 and the old
status is `responded`.  Both SET clauses read the pre-update row. -/
def decrement_responder_count (a : AlertRow) : AlertRow :=
  { responder_count := max 0 (a.responder_count - 1)
  , status :=
      if max 0 (a.responder_count - 1) = 0 ∧ a.status = AlertStatus.responded
      then AlertStatus.active
      else a.status }

/-- The claim-relevant columns of one row of the `responses` table,
restricted to a single fixed alert. -/
structure ResponseRow where
  id : Nat
  responder : String
  status : ResponseStatus
deriving DecidableEq

/-- The store state for one alert: its `alerts` row and the `responses`
rows referencing it. -/
structure Store where
  alert : AlertRow
  responses : List ResponseRow
deriving DecidableEq

/-- The `SELECT ... WHERE alert_id = p_alert_id AND responder_id = p_responder_id`
lookup used by the stored procedures and by the client pre-check. -/
def findResponse (r : String) (rows : List ResponseRow) : Option ResponseRow :=
  rows.find? (fun row => row.responder = r)

/-- The SQL error conditions the modelled code can raise.  The only one
an INSERT into `responses` can raise here is `unique_violation`, from
constraint `responses_alert_responder_unique` on (alert_id, responder_id). -/
inductive PgError
  | uniqueViolation
deriving DecidableEq

/-- A raw `INSERT INTO responses`: raises `unique_violation` exactly when
a row for the same (alert, responder) pair already exists, per constraint
`responses_alert_responder_unique`
(migration `20250610161125_bitter_limit.sql`, lines 330-336). -/
def insertResponse (r : String) (fresh : Nat) (s : Store) :
    Except PgError Store :=
  if (findResponse r s.responses).isSome then
    Except.error PgError.uniqueViolation
  else
    Except.ok
      { s with responses :=
          s.responses ++ [{ id := fresh, responder := r, status := ResponseStatus.committed }] }

/-- Stored procedure `create_response_safe`
(migration `20250610161125_bitter_limit.sql`, lines 356-390):
select an existing row for the pair and return its id when found;
otherwise INSERT and return the fresh id; a `unique_violation` raised by
the INSERT (a concurrent transaction committed a row for the pair
between the check and the INSERT) is caught and the existing row's id is
re-selected and returned.  `sCheck` is the store the existence check
reads, `sInsert` the store the INSERT (and the handler's re-select)
runs against; a concurrent writer may have changed the store in between.
The returned store is the store after the call. -/
def create_response_safe (r : String) (fresh : Nat) (sCheck sInsert : Store) :
    Except PgError (Option Nat × Store) :=
  match findResponse r sCheck.responses with
  | some row => Except.ok (some row.id, sInsert)
  | none =>
    match insertResponse r fresh sInsert with
    | Except.ok s2 => Except.ok (some fresh, s2)
    | Except.error PgError.uniqueViolation =>
        Except.ok ((findResponse r sInsert.responses).map ResponseRow.id, sInsert)

/-- One call of `create_response_safe` running without a concurrent
writer between its check and its INSERT: both read the same store. -/
def createResponseSafeAtomic (r : String) (fresh : Nat) (s : Store) :
    Option Nat × Store :=
  match create_response_safe r fresh s s with
  | Except.ok v => v
  | Except.error _ => (none, s)

/-- Client operation `commitToAlert` (`src/hooks/useAlerts.ts`,
lines 229-291), one caller in isolation: pre-check for an existing
response row and return early when found; otherwise call the RPC
`create_response_safe` and, when the returned id `data` is non-null,
call the RPC `increment_responder_count`. -/
def commitToAlert (r : String) (fresh : Nat) (s : Store) : Store :=
  if (findResponse r s.responses).isSome then s
  else
    match createResponseSafeAtomic r fresh s with
    | (some _, s1) => { s1 with alert := increment_responder_count s1.alert }
    | (none, s1) => s1

/-- Two concurrent `commitToAlert` callers for the same (alert,
responder) pair, under the schedule: both pre-checks read the initial
store, then caller A's `create_response_safe`, then caller B's, then
A's `increment_responder_count`, then B's.  Each RPC is one atomic
store step; each caller increments exactly when its own pre-check found
nothing and its `create_response_safe` call returned a non-null id
(the client's `if (data)` test). -/
def raceCommitToAlert (r : String) (freshA freshB : Nat) (s0 : Store) : Store :=
  let checkA := (findResponse r s0.responses).isSome
  let checkB := (findResponse r s0.responses).isSome
  let stepA := if checkA then (none, s0) else createResponseSafeAtomic r freshA s0
  let stepB := if checkB then (none, stepA.2) else createResponseSafeAtomic r freshB stepA.2
  let s3 :=
    if !checkA && stepA.1.isSome then
      { stepB.2 with alert := increment_responder_count stepB.2.alert }
    else stepB.2
  if !checkB && stepB.1.isSome then
    { s3 with alert := increment_responder_count s3.alert }
  else s3

/-- Stored procedure `cancel_response_safe`
(migration `20250610151024_tiny_cave.sql`, lines 21-51):
when no response row exists for the pair, return false and change
nothing; otherwise delete the pair's row(s), run
`decrement_responder_count` on the alert, and return true. -/
def cancel_response_safe (r : String) (s : Store) : Bool × Store :=
  if (findResponse r s.responses).isSome then
    (true,
      { alert := decrement_responder_count s.alert
      , responses := s.responses.filter (fun row => row.responder ≠ r) })
  else (false, s)

/-- The alert UPDATE of the client fallback in `cancelResponse`
(`src/hooks/useAlerts.ts`, lines 355-404): read `responder_count`,
recompute `newCount = Math.max(0, currentCount - 1)`, then set the
status to `cancelled` when `newCount` is 0, else update the count only. -/
def fallbackAlertUpdate (a : AlertRow) : AlertRow :=
  let newCount := max 0 (a.responder_count - 1)
  if newCount = 0 then
    { status := AlertStatus.cancelled, responder_count := newCount }
  else
    { a with responder_count := newCount }

/-- The client fallback path of `cancelResponse`
(`src/hooks/useAlerts.ts`, lines 322-405): delete the pair's response
rows, record the cancellation reason in a side table (not modelled:
it touches neither the alert nor the responses), then apply
`fallbackAlertUpdate` to the alert. -/
def cancelResponseFallback (r : String) (s : Store) : Store :=
  let s1 : Store := { s with responses := s.responses.filter (fun row => row.responder ≠ r) }
  { s1 with alert := fallbackAlertUpdate s1.alert }

/-- Client operation `cancelResponse` (`src/hooks/useAlerts.ts`,
lines 293-435): call the RPC `cancel_response_safe`; when the RPC
transport errored (`rpcErrored`, store unchanged) or the RPC returned
false, run the manual fallback on the resulting store. -/
def cancelResponse (r : String) (rpcErrored : Bool) (s : Store) : Store :=
  if rpcErrored then cancelResponseFallback r s
  else
    let rpc := cancel_response_safe r s
    if rpc.1 then rpc.2 else cancelResponseFallback r rpc.2

/-- The atomic store updates that can touch an alert row's status or
count, one per write site in the source:
`incrementCount` is the RPC called by `commitToAlert`;
`decrementCount` is the RPC called directly or via `cancel_response_safe`;
`fallbackCancelUpdate` is the client fallback's alert UPDATE in
`cancelResponse`; `setResolved` is the alert UPDATE of `endResponse`
(`src/hooks/useAlerts.ts`, lines 459-465); `setCancelled` is the alert
UPDATE of `cancelAlert` (`src/hooks/useMonitoringSession.ts`,
lines 434-460).  A new alert starts at `active` with count 0
(`create_alert_with_notification`). -/
inductive AlertOp
  | incrementCount
  | decrementCount
  | fallbackCancelUpdate
  | setResolved
  | setCancelled
deriving DecidableEq

/-- Effect of one atomic status-touching store update on an alert row. -/
def applyAlertOp : AlertOp → AlertRow → AlertRow
  | AlertOp.incrementCount, a => increment_responder_count a
  | AlertOp.decrementCount, a => decrement_responder_count a
  | AlertOp.fallbackCancelUpdate, a => fallbackAlertUpdate a
  | AlertOp.setResolved, a => { a with status := AlertStatus.resolved }
  | AlertOp.setCancelled, a => { a with status := AlertStatus.cancelled }

/-- An arbitrary interleaved sequence of the status-touching store
updates, applied to an alert row. -/
def runAlertOps (ops : List AlertOp) (a : AlertRow) : AlertRow :=
  ops.foldl (fun a op => applyAlertOp op a) a

/-- Terminal alert statuses per spec section 4.2: `resolved` and
`cancelled`. -/
def isTerminal (s : AlertStatus) : Bool :=
  match s with
  | AlertStatus.resolved => true
  | AlertStatus.cancelled => true
  | _ => false

/-- Modelled from the spec: the alert status transitions of spec
section 4.2 — active to responded, responded to active, active or
responded to cancelled, active or responded to resolved. -/
def spec42Transition (s t : AlertStatus) : Bool :=
  match s, t with
  | AlertStatus.active, AlertStatus.responded => true
  | AlertStatus.responded, AlertStatus.active => true
  | AlertStatus.active, AlertStatus.cancelled => true
  | AlertStatus.responded, AlertStatus.cancelled => true
  | AlertStatus.active, AlertStatus.resolved => true
  | AlertStatus.responded, AlertStatus.resolved => true
  | _, _ => false

/-- The claim-relevant columns of one row of the `monitoring_sessions`
table. -/
structure SessionRow where
  status : MonitoringStatus
  ended_at : Option Nat
deriving DecidableEq

/-- Stored procedure `end_monitoring_session_safe`
(migration `20250610161125_bitter_limit.sql`, lines 409-419):
UPDATE sets `status` to the argument and `ended_at` to
`COALESCE(ended_at, now())`, guarded by `WHERE ended_at IS NULL`;
a session already ended is left untouched.  `now` is the clock value
at the call. -/
def end_monitoring_session_safe (p_status : MonitoringStatus) (now : Nat)
    (s : SessionRow) : SessionRow :=
  if s.ended_at = none then
    { status := p_status
    , ended_at :=
        match s.ended_at with
        | some t => some t
        | none => some now }
  else s

/-- The claim-relevant columns of an `alerts` row as seen by the fetch
layer. -/
structure DbAlert where
  id : Nat
  status : AlertStatus
deriving DecidableEq

/-- The alerts query of `fetchAlerts` (`src/hooks/useAlerts.ts`,
lines 97-133): select alerts whose status is in
('active', 'responded', 'cancelled'); the result replaces the
consumer-visible alert list wholesale (`setAlerts(data)`). -/
def fetchAlertsQuery (db : List DbAlert) : List DbAlert :=
  db.filter (fun a =>
    a.status = AlertStatus.active ∨ a.status = AlertStatus.responded ∨
      a.status = AlertStatus.cancelled)

/-- The responses query of `fetchUserCommitments`
(`src/hooks/useAlerts.ts`, lines 164-202): select the current
identity's responses whose status is in
('committed', 'en_route', 'arrived'). -/
def fetchUserCommitmentsQuery (r : String) (rows : List ResponseRow) :
    List ResponseRow :=
  rows.filter (fun row =>
    row.responder = r ∧
      (row.status = ResponseStatus.committed ∨ row.status = ResponseStatus.enRoute ∨
        row.status = ResponseStatus.arrived))

/-- The wait inserted by `withRetry` (`src/lib/supabase.ts`,
lines 35-58) after failed attempt number `attempt`:
`delay * attempt` milliseconds. -/
def retryDelay (delay attempt : Nat) : Nat := delay * attempt

/-- The retry loop of `withRetry` from attempt number `attempt` with
`remaining` further attempts allowed after it.  `outcomes k` is the
result the wrapped operation would produce on attempt `k`.  Returns the
overall result together with the list of waits performed between
attempts. -/
def withRetryFrom {E A : Type} (outcomes : Nat → Except E A) (delay : Nat) :
    Nat → Nat → Except E A × List Nat
  | attempt, 0 => (outcomes attempt, [])
  | attempt, remaining + 1 =>
    match outcomes attempt with
    | Except.ok a => (Except.ok a, [])
    | Except.error _ =>
      let rest := withRetryFrom outcomes delay (attempt + 1) remaining
      (rest.1, retryDelay delay attempt :: rest.2)

/-- `withRetry` (`src/lib/supabase.ts`, lines 35-58): run the operation
up to `maxRetries` times, starting at attempt 1; on a failure at
attempt `k < maxRetries` wait `delay * k` and retry; the failure of
attempt `maxRetries` is thrown to the caller. -/
def withRetry {E A : Type} (outcomes : Nat → Except E A)
    (maxRetries delay : Nat) : Except E A × List Nat :=
  withRetryFrom outcomes delay 1 (maxRetries - 1)

/-- Claim C1: committing is idempotent for sequential repeats (one row,
one increment), but under two concurrent callers the code
double-increments: with the schedule of `raceCommitToAlert`, both
callers pass their pre-check, `create_response_safe` hands the second
caller the existing row's (non-null) id, the client's `if (data)` test
therefore passes for both, and `increment_responder_count` runs twice.
Starting from an active alert with count 0 and no responses, the race
ends with exactly one response row but `responder_count = 2`, violating
the claim's "increments at most once in total"; the sequential repeat
(last conjunct) is a no-op as claimed. -/
theorem race_commit_double_increments :
    (raceCommitToAlert "u1" 10 11 ⟨⟨AlertStatus.active, 0⟩, []⟩).responses.length = 1 ∧
    (raceCommitToAlert "u1" 10 11 ⟨⟨AlertStatus.active, 0⟩, []⟩).alert.responder_count = 2 ∧
    commitToAlert "u1" 11 (commitToAlert "u1" 10 ⟨⟨AlertStatus.active, 0⟩, []⟩) =
      commitToAlert "u1" 10 ⟨⟨AlertStatus.active, 0⟩, []⟩ := by
  decide

/-- Claim C2, counterexample: for an alert in status `responded` with
exactly one remaining committed response, the stored procedure
`cancel_response_safe` reverts the alert to `active` while the
client-side fallback of `cancelResponse` sets it to `cancelled` — the
two cancellation paths do not implement one and the same zero-responder
policy. -/
theorem cancel_paths_disagree_concrete :
    (cancel_response_safe "u1"
        ⟨⟨AlertStatus.responded, 1⟩, [⟨5, "u1", ResponseStatus.committed⟩]⟩).2.alert.status =
      AlertStatus.active ∧
    (cancelResponseFallback "u1"
        ⟨⟨AlertStatus.responded, 1⟩, [⟨5, "u1", ResponseStatus.committed⟩]⟩).alert.status =
      AlertStatus.cancelled := by
  decide

/-- Claim C2, amended: the two cancellation paths implement different
zero-responder policies.  For every alert in status `responded` with
`responder_count = 1` and an existing response for the caller,
`cancel_response_safe` leaves the alert in status `active`, while the
client fallback leaves it in status `cancelled`. -/
theorem cancel_paths_zero_responder_policies (r : String) (s : Store)
    (h1 : s.alert.status = AlertStatus.responded)
    (h2 : s.alert.responder_count = 1)
    (h3 : (findResponse r s.responses).isSome = true) :
    (cancel_response_safe r s).2.alert.status = AlertStatus.active ∧
    (cancelResponseFallback r s).alert.status = AlertStatus.cancelled := by
  have hz : max 0 (s.alert.responder_count - 1) = 0 := by rw [h2]; decide
  constructor
  · simp [cancel_response_safe, h3, decrement_responder_count, hz, h1]
  · simp [cancelResponseFallback, fallbackAlertUpdate, hz]

/-- Witness for the amended claim C2 at a concrete store. -/
theorem cancel_paths_zero_responder_policies_w :
    (cancel_response_safe "u2"
        ⟨⟨AlertStatus.responded, 1⟩, [⟨6, "u2", ResponseStatus.enRoute⟩]⟩).2.alert.status =
      AlertStatus.active ∧
    (cancelResponseFallback "u2"
        ⟨⟨AlertStatus.responded, 1⟩, [⟨6, "u2", ResponseStatus.enRoute⟩]⟩).alert.status =
      AlertStatus.cancelled :=
  cancel_paths_zero_responder_policies "u2"
    ⟨⟨AlertStatus.responded, 1⟩, [⟨6, "u2", ResponseStatus.enRoute⟩]⟩ rfl rfl (by decide)

/-- Claim C3, counterexample: `endResponse` updates the alert to
`resolved` unconditionally, so applied to an alert already in the
terminal status `cancelled` it produces the status change
cancelled-to-resolved, which is not one of the transitions of spec
section 4.2. -/
theorem end_response_on_cancelled_outside_spec42 :
    (applyAlertOp AlertOp.setResolved ⟨AlertStatus.cancelled, 0⟩).status = AlertStatus.resolved ∧
    spec42Transition AlertStatus.cancelled AlertStatus.resolved = false := by
  decide

/-- Every status-touching store update maps an alert in a terminal
status to an alert in a terminal status. -/
theorem applyAlertOp_terminal_stable (op : AlertOp) (a : AlertRow)
    (h : isTerminal a.status = true) :
    isTerminal (applyAlertOp op a).status = true := by
  cases op with
  | incrementCount =>
    cases ha : a.status <;> simp_all [applyAlertOp, increment_responder_count, isTerminal]
  | decrementCount =>
    cases ha : a.status <;> simp_all [applyAlertOp, decrement_responder_count, isTerminal]
  | fallbackCancelUpdate =>
    simp only [applyAlertOp, fallbackAlertUpdate]
    split
    · simp [isTerminal]
    · simpa [isTerminal] using h
  | setResolved => simp [applyAlertOp, isTerminal]
  | setCancelled => simp [applyAlertOp, isTerminal]

/-- Claim C3, amended: from a non-terminal status other than the legacy
`false_alarm`, every status-touching store update either leaves the
status unchanged or performs a section 4.2 transition; and over every
sequence of such updates a terminal status (`resolved`, `cancelled`)
never regresses to a non-terminal one.  (The counterexample shows the
code can still move an alert between the two terminal statuses, which
is outside section 4.2.) -/
theorem alert_status_spec42_live_and_terminal_stable :
    (∀ op a, isTerminal a.status = false → a.status ≠ AlertStatus.falseAlarm →
      ((applyAlertOp op a).status = a.status ∨
        spec42Transition a.status (applyAlertOp op a).status = true)) ∧
    (∀ ops a, isTerminal a.status = true →
      isTerminal (runAlertOps ops a).status = true) := by
  constructor
  · intro op a h1 h2
    cases op <;> cases ha : a.status <;>
      simp_all [applyAlertOp, increment_responder_count, decrement_responder_count,
        fallbackAlertUpdate, isTerminal, spec42Transition] <;>
      try (split <;> simp_all [spec42Transition])
  · intro ops a h
    induction ops generalizing a with
    | nil => simpa [runAlertOps] using h
    | cons op rest ih =>
      have h1 := applyAlertOp_terminal_stable op a h
      simpa [runAlertOps] using ih (applyAlertOp op a) h1

/-- Witness for the amended claim C3 at concrete inputs. -/
theorem alert_status_spec42_live_and_terminal_stable_w :
    ((applyAlertOp AlertOp.incrementCount ⟨AlertStatus.active, 0⟩).status = AlertStatus.active ∨
      spec42Transition AlertStatus.active
        (applyAlertOp AlertOp.incrementCount ⟨AlertStatus.active, 0⟩).status = true) ∧
    isTerminal
      (runAlertOps [AlertOp.incrementCount, AlertOp.decrementCount, AlertOp.setCancelled]
        ⟨AlertStatus.resolved, 2⟩).status = true :=
  ⟨alert_status_spec42_live_and_terminal_stable.1 AlertOp.incrementCount
      ⟨AlertStatus.active, 0⟩ (by decide) (by decide),
    alert_status_spec42_live_and_terminal_stable.2
      [AlertOp.incrementCount, AlertOp.decrementCount, AlertOp.setCancelled]
      ⟨AlertStatus.resolved, 2⟩ (by decide)⟩

/-- Claim C4: the stored procedure half holds — `cancel_response_safe`
on a pair with no response row returns false and leaves the store
untouched — but the client `cancelResponse` treats that false return as
a failed RPC and runs the manual fallback, which decrements
`responder_count` and, the count having reached zero, sets the alert to
`cancelled`: cancelling a non-existent response does not leave the
alert row unchanged.  Concrete failing input: alert in status
`responded` with `responder_count = 1` and no response row for the
caller. -/
theorem cancel_missing_response_mutates_alert :
    cancel_response_safe "u1" ⟨⟨AlertStatus.responded, 1⟩, []⟩ =
      (false, ⟨⟨AlertStatus.responded, 1⟩, []⟩) ∧
    cancelResponse "u1" false ⟨⟨AlertStatus.responded, 1⟩, []⟩ =
      ⟨⟨AlertStatus.cancelled, 0⟩, []⟩ := by
  decide

/-- Claim C5: one call of `increment_responder_count` adds exactly one
to `responder_count` and, in the same update, sets the status to
`responded` exactly when the old status is `active`, leaving the status
field unchanged for every other status. -/
theorem increment_adds_one_and_promotes_active (a : AlertRow) :
    (increment_responder_count a).responder_count = a.responder_count + 1 ∧
    (increment_responder_count a).status =
      (if a.status = AlertStatus.active then AlertStatus.responded else a.status) :=
  ⟨rfl, rfl⟩

/-- Claim C6, counterexample: the alerts fetch of `fetchAlerts` selects
statuses ('active', 'responded', 'cancelled'), so a store holding one
alert in the terminal status `cancelled` yields a fetched — and, the
list being replaced wholesale, consumer-visible — alert list containing
a terminal alert. -/
theorem fetch_returns_cancelled_alert :
    fetchAlertsQuery [⟨1, AlertStatus.cancelled⟩] = [⟨1, AlertStatus.cancelled⟩] ∧
    isTerminal AlertStatus.cancelled = true := by
  decide

/-- Claim C6, amended: the alerts fetch retrieves exactly the alerts in
status `active`, `responded` or `cancelled` — excluding `resolved` and
`false_alarm` but including the terminal `cancelled` — and the
responses fetch retrieves only the current identity's non-terminal
(not `completed`) responses; the fetched set replaces the visible list
wholesale. -/
theorem fetch_filters_characterization :
    (∀ db a, a ∈ fetchAlertsQuery db →
      a ∈ db ∧ a.status ≠ AlertStatus.resolved ∧ a.status ≠ AlertStatus.falseAlarm) ∧
    (∀ db a, a ∈ db →
      a.status = AlertStatus.active ∨ a.status = AlertStatus.responded ∨
        a.status = AlertStatus.cancelled →
      a ∈ fetchAlertsQuery db) ∧
    (∀ r rows row, row ∈ fetchUserCommitmentsQuery r rows →
      row ∈ rows ∧ row.responder = r ∧ row.status ≠ ResponseStatus.completed) := by
  refine ⟨?_, ?_, ?_⟩
  · intro db a ha
    rw [fetchAlertsQuery, List.mem_filter] at ha
    obtain ⟨hmem, hst⟩ := ha
    rw [decide_eq_true_iff] at hst
    refine ⟨hmem, ?_, ?_⟩ <;> rcases hst with h | h | h <;> simp [h]
  · intro db a hmem hst
    rw [fetchAlertsQuery, List.mem_filter]
    exact ⟨hmem, by rw [decide_eq_true_iff]; exact hst⟩
  · intro r rows row h
    rw [fetchUserCommitmentsQuery, List.mem_filter] at h
    obtain ⟨hmem, hc⟩ := h
    rw [decide_eq_true_iff] at hc
    obtain ⟨hr, hst⟩ := hc
    refine ⟨hmem, hr, ?_⟩
    rcases hst with h | h | h <;> simp [h]

/-- Witness for the amended claim C6 at concrete inputs. -/
theorem fetch_filters_characterization_w :
    ((⟨2, AlertStatus.active⟩ : DbAlert) ∈
      fetchAlertsQuery [⟨2, AlertStatus.active⟩, ⟨3, AlertStatus.resolved⟩]) ∧
    ((⟨7, "u1", ResponseStatus.committed⟩ : ResponseRow) ∈
        [⟨7, "u1", ResponseStatus.committed⟩, ⟨8, "u2", ResponseStatus.completed⟩] ∧
      "u1" = "u1" ∧ ResponseStatus.committed ≠ ResponseStatus.completed) :=
  ⟨fetch_filters_characterization.2.1 [⟨2, AlertStatus.active⟩, ⟨3, AlertStatus.resolved⟩]
      ⟨2, AlertStatus.active⟩ (by decide) (Or.inl rfl),
    fetch_filters_characterization.2.2 "u1"
      [⟨7, "u1", ResponseStatus.committed⟩, ⟨8, "u2", ResponseStatus.completed⟩]
      ⟨7, "u1", ResponseStatus.committed⟩ (by decide)⟩

/-- Claim C7: every decrement path floors the count at zero — the
stored procedure `decrement_responder_count` always yields a
non-negative count and maps a zero count to zero; a decrementing
`cancel_response_safe` call yields a non-negative count; the client
fallback's recompute always yields a non-negative count. -/
theorem responder_count_floored_at_zero :
    (∀ a, 0 ≤ (decrement_responder_count a).responder_count) ∧
    (∀ a, a.responder_count = 0 → (decrement_responder_count a).responder_count = 0) ∧
    (∀ r s, (cancel_response_safe r s).1 = true →
      0 ≤ (cancel_response_safe r s).2.alert.responder_count) ∧
    (∀ r s, 0 ≤ (cancelResponseFallback r s).alert.responder_count) := by
  refine ⟨?_, ?_, ?_, ?_⟩
  · intro a
    exact le_max_left 0 (a.responder_count - 1)
  · intro a h
    simp [decrement_responder_count, h]
  · intro r s h
    by_cases hc : (findResponse r s.responses).isSome
    · simp only [cancel_response_safe, hc, if_true, decrement_responder_count]
      exact le_max_left 0 (s.alert.responder_count - 1)
    · simp [cancel_response_safe, hc] at h
  · intro r s
    by_cases hz : max 0 (s.alert.responder_count - 1) = 0
    · simp [cancelResponseFallback, fallbackAlertUpdate, hz]
    · simp only [cancelResponseFallback, fallbackAlertUpdate, hz, if_false]
      exact le_max_left 0 (s.alert.responder_count - 1)

/-- Witness for claim C7 at concrete inputs. -/
theorem responder_count_floored_at_zero_w :
    (decrement_responder_count ⟨AlertStatus.responded, 0⟩).responder_count = 0 ∧
    0 ≤ (cancel_response_safe "u1"
      ⟨⟨AlertStatus.responded, 1⟩, [⟨5, "u1", ResponseStatus.committed⟩]⟩).2.alert.responder_count :=
  ⟨responder_count_floored_at_zero.2.1 ⟨AlertStatus.responded, 0⟩ rfl,
    responder_count_floored_at_zero.2.2.1 "u1"
      ⟨⟨AlertStatus.responded, 1⟩, [⟨5, "u1", ResponseStatus.committed⟩]⟩ (by decide)⟩

/-- Claim C8: `end_monitoring_session_safe` is idempotent — a second
call on the same session, with any status and clock arguments, changes
nothing, and more generally a session whose `ended_at` is already
non-null is left untouched. -/
theorem end_monitoring_session_safe_idempotent :
    (∀ s st1 n1 st2 n2,
      end_monitoring_session_safe st2 n2 (end_monitoring_session_safe st1 n1 s) =
        end_monitoring_session_safe st1 n1 s) ∧
    (∀ s st n, s.ended_at ≠ none → end_monitoring_session_safe st n s = s) := by
  constructor
  · intro s st1 n1 st2 n2
    cases h : s.ended_at with
    | none => simp [end_monitoring_session_safe, h]
    | some t => simp [end_monitoring_session_safe, h]
  · intro s st n h
    simp [end_monitoring_session_safe, h]

/-- Witness for claim C8 at a concrete session. -/
theorem end_monitoring_session_safe_idempotent_w :
    end_monitoring_session_safe MonitoringStatus.completed 9
      ⟨MonitoringStatus.emergency, some 4⟩ = ⟨MonitoringStatus.emergency, some 4⟩ :=
  end_monitoring_session_safe_idempotent.2 ⟨MonitoringStatus.emergency, some 4⟩
    MonitoringStatus.completed 9 (by decide)

/-- Claim C9, counterexample: the waits `withRetry` performs between
attempts grow linearly, not exponentially — with base delay 1000 and
four all-failing attempts the waits are 1000, 2000, 3000, whose
successive ratios differ (1000 x 3000 is not 2000 x 2000), so the wait
sequence is not geometric and the backoff is not exponential. -/
theorem withRetry_backoff_not_geometric :
    (withRetry (fun _ => (Except.error "boom" : Except String Nat)) 4 1000).2 =
      [1000, 2000, 3000] ∧
    1000 * 3000 ≠ 2000 * 2000 := by
  decide

/-- The retry loop under all-failing outcomes: starting at attempt
`attempt` with `remaining` further attempts allowed, it returns the
outcome of the last attempt and performs the waits
`retryDelay d attempt, ..., retryDelay d (attempt + remaining - 1)`. -/
theorem withRetryFrom_all_fail {E A : Type} (outcomes : Nat → Except E A) (d : Nat) :
    ∀ remaining attempt,
      (∀ k, attempt ≤ k → k ≤ attempt + remaining → ∃ e, outcomes k = Except.error e) →
      withRetryFrom outcomes d attempt remaining =
        (outcomes (attempt + remaining),
          (List.range remaining).map (fun i => retryDelay d (attempt + i))) := by
  intro remaining
  induction remaining with
  | zero =>
    intro attempt h
    simp [withRetryFrom]
  | succ n ih =>
    intro attempt h
    obtain ⟨e, he⟩ := h attempt le_rfl (Nat.le_add_right _ _)
    have hrest := ih (attempt + 1) (fun k hk1 hk2 => h k (by omega) (by omega))
    simp only [withRetryFrom, he, hrest, List.range_succ_eq_map, List.map_map,
      List.map_cons]
    rw [Prod.mk.injEq]
    constructor
    · have hx : attempt + 1 + n = attempt + (n + 1) := by omega
      rw [hx]
    · rw [List.cons.injEq]
      constructor
      · rfl
      · apply List.map_congr_left
        intro i _
        show retryDelay d (attempt + 1 + i) = retryDelay d (attempt + (i + 1))
        have hx : attempt + 1 + i = attempt + (i + 1) := by omega
        rw [hx]

/-- Claim C9, amended: `withRetry` performs a bounded number of
attempts (at most `maxRetries`) with linearly increasing backoff waits
(`delay` times the attempt number) between attempts, and when every
attempt fails it surfaces the last attempt's error to the caller. -/
theorem withRetry_bounded_linear_backoff {E A : Type}
    (outcomes : Nat → Except E A) (m d : Nat) (hm : 1 ≤ m)
    (hfail : ∀ k, 1 ≤ k → k ≤ m → ∃ e, outcomes k = Except.error e) :
    withRetry outcomes m d =
      (outcomes m, (List.range (m - 1)).map (fun i => retryDelay d (1 + i))) := by
  unfold withRetry
  have h := withRetryFrom_all_fail outcomes d (m - 1) 1
    (fun k hk1 hk2 => hfail k hk1 (by omega))
  have h1 : 1 + (m - 1) = m := by omega
  rw [h, h1]

/-- Witness for the amended claim C9 at concrete inputs. -/
theorem withRetry_bounded_linear_backoff_w :
    withRetry (fun _ => (Except.error "boom" : Except String Nat)) 3 500 =
      (Except.error "boom", [500, 1000]) := by
  have h := withRetry_bounded_linear_backoff
    (fun _ => (Except.error "boom" : Except String Nat)) 3 500 (by decide)
    (fun k h1 h2 => ⟨"boom", rfl⟩)
  rw [h]
  rfl

/-- Claim C10: `create_response_safe` never propagates an error — for
every pair of check-time and insert-time stores it returns `Except.ok`,
and in the race where the pair's row appears between the check and the
INSERT the caught `unique_violation` branch returns the existing row's
id with the store unchanged. -/
theorem create_response_safe_never_errors :
    (∀ r fresh sCheck sInsert, ∃ v,
      create_response_safe r fresh sCheck sInsert = Except.ok v) ∧
    (∀ r fresh sCheck sInsert row,
      findResponse r sCheck.responses = none →
      findResponse r sInsert.responses = some row →
      create_response_safe r fresh sCheck sInsert = Except.ok (some row.id, sInsert)) := by
  constructor
  · intro r fresh sCheck sInsert
    cases hc : findResponse r sCheck.responses with
    | some row =>
      exact ⟨(some row.id, sInsert), by simp [create_response_safe, hc]⟩
    | none =>
      by_cases hi : (findResponse r sInsert.responses).isSome
      · refine ⟨((findResponse r sInsert.responses).map ResponseRow.id, sInsert), ?_⟩
        simp [create_response_safe, insertResponse, hc, hi]
      · refine ⟨(some fresh,
          { sInsert with responses :=
              sInsert.responses ++ [⟨fresh, r, ResponseStatus.committed⟩] }), ?_⟩
        simp [create_response_safe, insertResponse, hc, hi]
  · intro r fresh sCheck sInsert row h1 h2
    simp [create_response_safe, insertResponse, h1, h2]

/-- Witness for claim C10 at concrete stores exhibiting the race. -/
theorem create_response_safe_never_errors_w :
    create_response_safe "u1" 7 ⟨⟨AlertStatus.active, 0⟩, []⟩
        ⟨⟨AlertStatus.responded, 1⟩, [⟨5, "u1", ResponseStatus.committed⟩]⟩ =
      Except.ok (some 5, ⟨⟨AlertStatus.responded, 1⟩, [⟨5, "u1", ResponseStatus.committed⟩]⟩) :=
  create_response_safe_never_errors.2 "u1" 7 ⟨⟨AlertStatus.active, 0⟩, []⟩
    ⟨⟨AlertStatus.responded, 1⟩, [⟨5, "u1", ResponseStatus.committed⟩]⟩
    ⟨5, "u1", ResponseStatus.committed⟩ (by decide) (by decide)
